import Mathlib

/-!
Verification development for the fast-db-searcher repository.

The repository has two pipelines:
* `nl2sql_converter.py`: introspect an SQLite table (`utils/helper.py`),
  render a fixed prompt template (`utils/prompt.py`), call an LLM, parse
  its reply as JSON, and execute the extracted SQL query.
* `router.py`: classify a batch of queries with a semantic router and
  write a JSON report.

The Python code is shallowly embedded below: JSON values are an inductive
type, Python exceptions are explicit error values, library calls whose
implementation lives outside the repository (the JSON string codec, the
SQLite engine, the embedding similarity) are parameters of the embedded
functions, and side effects (connections, executed statements, file
writes) are explicit event traces.
-/

namespace FastDbSearcher

/-- A decoded JSON value, as produced by Python `json.loads`:
objects are dictionaries (keys unique after decoding), numbers are
modelled as integers (only truthiness of numbers matters here). -/
inductive Json where
  | null
  | bool (b : Bool)
  | num (n : Int)
  | str (s : String)
  | arr (elems : List Json)
  | obj (fields : List (String × Json))
deriving Repr

/-- The Python exceptions the embedded code can raise or catch. -/
inductive PyError where
  | jsonDecodeError
  | keyError (key : String)
  | typeError
  | sqliteError (msg : String)
  | runtimeError (msg : String)
deriving Repr, DecidableEq

/-- Outcome of running a Python block: normal completion or an uncaught
exception. -/
inductive PyOutcome (α : Type) where
  | ok (a : α)
  | raised (e : PyError)
deriving Repr, DecidableEq

/-- Python truthiness (`if x:`) of a decoded JSON value: `None`, `False`,
zero, and empty strings/lists/dicts are falsy. -/
def Json.truthy : Json → Bool
  | .null => false
  | .bool b => b
  | .num n => n != 0
  | .str s => !s.isEmpty
  | .arr xs => !xs.isEmpty
  | .obj fs => !fs.isEmpty

/-- Python subscripting `x["k"]` on a decoded JSON value: dictionary
lookup raises `KeyError` on a missing key; subscripting any non-dict
value with a string key raises `TypeError`. -/
def Json.subscript : Json → String → Except PyError Json
  | .obj fs, k =>
      match fs.lookup k with
      | some v => .ok v
      | none => .error (.keyError k)
  | _, _ => .error .typeError

/-- The `try/except json.JSONDecodeError` block of `nl2sql_converter.py`
(lines 64-76): `json.loads(response)` followed by
`response_dictionary["sql_query"]`.  `decode` is the behaviour of the
`json.loads` library call (`none` = `JSONDecodeError`).  Only the decode
error is caught (yielding `sql_query = None`); an error raised by the
subscript (`KeyError`, `TypeError`) propagates uncaught. -/
def parseResponse (decode : String → Option Json) (response : String) :
    Except PyError (Option Json) :=
  match decode response with
  | none => .ok none
  | some j =>
      match j.subscript "sql_query" with
      | .ok v => .ok (some v)
      | .error e => .error e

/-- An SQLite value occurring in a result row. -/
inductive SqlValue where
  | null
  | int (i : Int)
  | text (s : String)
deriving Repr, DecidableEq

/-- A result row, as returned by `cursor.fetchall()`. -/
abbrev Row := List SqlValue

/-- Observable database-connection events of one operation. -/
inductive DbEvent where
  | openConn
  | exec (sql : String)
  | closeConn
deriving Repr, DecidableEq

/-- The SQL statements attempted in a trace. -/
def execSqls (events : List DbEvent) : List String :=
  events.filterMap fun e =>
    match e with
    | .exec s => some s
    | _ => none

/-- The `if sql_query:` execution block of `nl2sql_converter.py`
(lines 78-89).  `db` is the behaviour of `cursor.execute(..); fetchall()`
(`.error` = `sqlite3.Error` raised).  The block runs only when
`sql_query` is truthy; `connect` is modelled as always succeeding;
`conn.close()` sits inside the `try`, after the result loop, so it is
skipped when `execute` raises; `except sqlite3.Error` catches only
SQLite errors, and `cursor.execute` applied to a non-string raises an
uncaught `TypeError` before any SQL is attempted. -/
def runExecutorBlock (db : String → Except PyError (List Row))
    (sql_query : Option Json) : PyOutcome Unit × List DbEvent :=
  match sql_query with
  | none => (.ok (), [])
  | some v =>
      if v.truthy then
        match v with
        | .str s =>
            match db s with
            | .ok _ => (.ok (), [.openConn, .exec s, .closeConn])
            | .error _ => (.ok (), [.openConn, .exec s])
        | _ => (.raised .typeError, [.openConn])
      else (.ok (), [])

/-- The response-handling tail of `nl2sql_converter.py`: parse the model
reply, then run the executor block.  An exception escaping the parse
block terminates the script before the executor block is reached. -/
def runQueryPhase (decode : String → Option Json)
    (db : String → Except PyError (List Row)) (response : String) :
    PyOutcome Unit × List DbEvent :=
  match parseResponse decode response with
  | .error e => (.raised e, [])
  | .ok sq => runExecutorBlock db sq

/-- One column record built by `get_column_info` in `utils/helper.py`:
`{'column_id': row[0], 'name': row[1], 'type': row[2]}`.  The code stores
`row[i]` without type checks, so the fields hold raw SQLite values. -/
structure ColumnDescriptor where
  column_id : SqlValue
  name : SqlValue
  type : SqlValue
deriving Repr, DecidableEq

/-- The SQL text `f"PRAGMA table_info(\x27{table_name}\x27)"` issued by
`get_column_info`. -/
def columnInfoSql (table_name : String) : String :=
  "PRAGMA table_info(\x27" ++ table_name ++ "\x27)"

/-- The SQL text `f"SELECT * FROM {table_name} LIMIT 3"` issued by
`get_table_sample`. -/
def tableSampleSql (table_name : String) : String :=
  "SELECT * FROM " ++ table_name ++ " LIMIT 3"

/-- The dictionary build in the `for row in schema_info` loop of
`get_column_info`: accessing `row[0]`, `row[1]`, `row[2]` raises
`IndexError` when the row is shorter than three values. -/
def rowToDescriptor : Row → Option ColumnDescriptor
  | a :: b :: c :: _ => some ⟨a, b, c⟩
  | _ => none

/-- `get_column_info` from `utils/helper.py`.  `db` is the behaviour of
`cursor.execute(..); fetchall()` on this database (`.error` = an
exception raised there); `connect` is modelled as always succeeding.
On the success path the connection is closed before the row loop runs;
when `execute`/`fetchall` raises, the `except` clauses return `None`
without ever reaching `conn.close()`.  A too-short row makes the loop
raise `IndexError`, caught by `except Exception` and turned into `None`
(the connection is already closed there).  Returns the Python result
together with the connection-event trace. -/
def get_column_info (db : String → Except PyError (List Row))
    (table_name : String) :
    Option (List ColumnDescriptor) × List DbEvent :=
  match db (columnInfoSql table_name) with
  | .error _ =>
      (none, [.openConn, .exec (columnInfoSql table_name)])
  | .ok schema_info =>
      (schema_info.mapM rowToDescriptor,
       [.openConn, .exec (columnInfoSql table_name), .closeConn])

/-- `get_table_sample` from `utils/helper.py`: same connection shape as
`get_column_info`; the `except` clauses return `[]` without closing. -/
def get_table_sample (db : String → Except PyError (List Row))
    (table_name : String) : List Row × List DbEvent :=
  match db (tableSampleSql table_name) with
  | .error _ => ([], [.openConn, .exec (tableSampleSql table_name)])
  | .ok rows => (rows, [.openConn, .exec (tableSampleSql table_name), .closeConn])

/-- Fixed template text of `utils/prompt.py` before the first
placeholder. -/
def promptPart1 : String :=
  "\nYou are a software engineer specialized in converting natural language query to SQL query. Follow closely the provided instructions. \n\n# Instructions\n- Always look up closely to the \x27database info\x27 section before converting the natural language query into a SQL query\n- Always follow the provided output format\n- ONLY include the SQL query to the user in your response\n\n# Database info\n<column_info table_name=\""

/-- Template text between `{table_name}` and `{column_info}`. -/
def promptPart2 : String :=
  "\">\nInfo about the columns of the table:\n"

/-- Template text between `{column_info}` and the second `{table_name}`. -/
def promptPart3 : String :=
  "\n</column_info>\n\n<table_sample table_name=\""

/-- Template text between the second `{table_name}` and `{table_sample}`. -/
def promptPart4 : String :=
  "\">\nThe first three rows of the table:\n"

/-- Template text between `{table_sample}` and `{nl_query}` (the doubled
braces of the template render as literal braces). -/
def promptPart5 : String :=
  "\n</table_sample>\n\n# Output format\nAlways provide the response according to the following output format:\n\x7b\"sql_query\": <sql_query>\x7d\n\n# Natural language query\n"

/-- `NL2SQL_PROMPT.format(table_name=.., table_sample=.., column_info=..,
nl_query=..)` from `nl2sql_converter.py` lines 37-42: the template of
`utils/prompt.py` with the four placeholders substituted (`table_sample`
and `column_info` enter as their rendered string forms). -/
def nl2sqlPrompt (table_name table_sample column_info nl_query : String) :
    String :=
  promptPart1 ++ table_name ++ promptPart2 ++ column_info ++ promptPart3 ++
    table_name ++ promptPart4 ++ table_sample ++ promptPart5 ++ nl_query ++ "\n"

/-- A route of `router.py`: a name and its example utterances. -/
structure Route where
  name : String
  utterances : List String
deriving Repr, DecidableEq

/-- One input record of `queries.json` as consumed by `router.py`. -/
structure QueryRecord where
  query : String
  category : String
deriving Repr, DecidableEq

/-- One report record built in the loop of `router.py`:
`{"query": .., "category": .., "route": ..}` where `route` is the
router's result (`None` when no route cleared the threshold). -/
structure RouteAssignment where
  query : String
  category : String
  route : Option String
deriving Repr, DecidableEq

/-- Modelled from the spec: the highest-similarity route selection of the
third-party `semantic_router` library (`SemanticRouter.__call__`), whose
code is not part of this repository.  Walks the configured routes and
keeps the one with the highest similarity to the query; on ties the
earlier-declared route wins. -/
def bestRoute (sim : String → Route → ℚ) (query : String) :
    List Route → Option (Route × ℚ)
  | [] => none
  | r :: rs =>
      match bestRoute sim query rs with
      | none => some (r, sim query r)
      | some (r2, s2) =>
          if sim query r < s2 then some (r2, s2) else some (r, sim query r)

/-- Modelled from the spec: the Utterance Router contract (spec section
4.5) implemented by the third-party `semantic_router` library configured
in `router.py` lines 9-19 — embed the query, compare against each route,
select the route with highest similarity, and return its name only when
the similarity reaches the threshold, otherwise no-match.  `sim` is the
similarity induced by the (external) embedding. -/
def routeQuery (sim : String → Route → ℚ) (threshold : ℚ)
    (routes : List Route) (query : String) : Option String :=
  match bestRoute sim query routes with
  | none => none
  | some (r, score) => if threshold ≤ score then some r.name else none

/-- The report loop of `router.py` lines 26-38: one
`{"query", "category", "route"}` record appended per input record, in
input order.  `rl` is the configured router applied to `query["query"]`. -/
def buildReport (rl : String → Option String) :
    List QueryRecord → List RouteAssignment
  | [] => []
  | q :: rest => ⟨q.query, q.category, rl q.query⟩ :: buildReport rl rest

/-- The report loop again, with a router call that may raise (an
embedding-service failure propagates: the loop body has no handler). -/
def buildReportE (rl : String → Except PyError (Option String)) :
    List QueryRecord → Except PyError (List RouteAssignment)
  | [] => .ok []
  | q :: rest =>
      match rl q.query with
      | .error e => .error e
      | .ok route =>
          match buildReportE rl rest with
          | .error e => .error e
          | .ok report => .ok (⟨q.query, q.category, route⟩ :: report)

/-- The JSON value of one report record as written by `json.dumps` in
`router.py`: a dictionary with the three fields, `route` becoming `null`
when absent. -/
def assignmentToJson (a : RouteAssignment) : Json :=
  .obj [("query", .str a.query), ("category", .str a.category),
        ("route", match a.route with
                  | none => .null
                  | some s => .str s)]

/-- The JSON value of the whole report list passed to `json.dumps`. -/
def reportToJson (report : List RouteAssignment) : Json :=
  .arr (report.map assignmentToJson)

/-- Modelled from the spec: reading one report record back (spec section
8 round-trip property; the repository only writes the report, reading is
plain `json.load` as used for `queries.json`) — a record is a dictionary
whose `query` and `category` fields are strings and whose `route` field
is a string or `null`. -/
def assignmentOfJson : Json → Option RouteAssignment
  | .obj fs =>
      match fs.lookup "query", fs.lookup "category", fs.lookup "route" with
      | some (.str q), some (.str c), some r =>
          match r with
          | .null => some ⟨q, c, none⟩
          | .str s => some ⟨q, c, some s⟩
          | _ => none
      | _, _, _ => none
  | _ => none

/-- Modelled from the spec: reading the whole report back as a list of
records. -/
def reportOfJson : Json → Option (List RouteAssignment)
  | .arr xs => xs.mapM assignmentOfJson
  | _ => none

/-- The whole batch run of `router.py`: classify every record, then write
`report.json`.  `dumps` is the `json.dumps` library call.  The write
happens after the loop; an exception in the loop propagates and the file
is never opened.  Returns the outcome and the list of files written. -/
def runBatchClassifier (rl : String → Except PyError (Option String))
    (dumps : Json → String) (queries : List QueryRecord) :
    PyOutcome Unit × List (String × String) :=
  match buildReportE rl queries with
  | .error e => (.raised e, [])
  | .ok report => (.ok (), [("report.json", dumps (reportToJson report))])

/-- The rows `PRAGMA table_info` returns for a table whose columns (in
native order) have the given names and declared types: one six-value row
`(cid, name, type, notnull, dflt_value, pk)` per column, with `cid`
counting up from the given start index (the SQLite engine is external;
this is its documented output shape). -/
def pragmaRowsFrom (i : Nat) : List (String × String) → List Row
  | [] => []
  | c :: rest =>
      [.int i, .text c.1, .text c.2, .int 0, .null, .int 0] ::
        pragmaRowsFrom (i + 1) rest

/-- The `PRAGMA table_info` rows of a whole table (`cid` from 0). -/
def pragmaRows (cols : List (String × String)) : List Row :=
  pragmaRowsFrom 0 cols

/-- The descriptors `get_column_info` builds from `pragmaRowsFrom`. -/
def descsFrom (i : Nat) : List (String × String) → List ColumnDescriptor
  | [] => []
  | c :: rest => ⟨.int i, .text c.1, .text c.2⟩ :: descsFrom (i + 1) rest

/-! ## Helper lemmas -/

lemma isEmpty_false_of_ne (s : String) (h : s ≠ "") : s.isEmpty = false := by
  rw [Bool.eq_false_iff]
  intro hc
  exact h ((String.isEmpty_iff s).mp hc)

lemma mapM_pragmaRowsFrom (i : Nat) (cols : List (String × String)) :
    (pragmaRowsFrom i cols).mapM rowToDescriptor = some (descsFrom i cols) := by
  induction cols generalizing i with
  | nil => rfl
  | cons c rest ih =>
      simp only [pragmaRowsFrom, descsFrom, List.mapM_cons, ih (i + 1),
        rowToDescriptor]
      rfl

lemma descsFrom_length (i : Nat) (cols : List (String × String)) :
    (descsFrom i cols).length = cols.length := by
  induction cols generalizing i with
  | nil => rfl
  | cons c rest ih => simp [descsFrom, ih (i + 1)]

lemma descsFrom_ids (i : Nat) (cols : List (String × String)) :
    (descsFrom i cols).map (fun d => d.column_id) =
      (List.range' i cols.length).map (fun k => SqlValue.int k) := by
  induction cols generalizing i with
  | nil => rfl
  | cons c rest ih =>
      simp [descsFrom, List.range'_succ, ih (i + 1)]

lemma assignment_roundtrip (a : RouteAssignment) :
    assignmentOfJson (assignmentToJson a) = some a := by
  obtain ⟨q, c, r⟩ := a
  cases r <;> rfl

lemma report_roundtrip_json (report : List RouteAssignment) :
    reportOfJson (reportToJson report) = some report := by
  induction report with
  | nil => rfl
  | cons a rest ih =>
      have ih2 : (rest.map assignmentToJson).mapM assignmentOfJson = some rest := by
        simpa [reportToJson, reportOfJson] using ih
      simp only [reportToJson, reportOfJson, List.map_cons, List.mapM_cons,
        assignment_roundtrip a, ih2]
      rfl

lemma buildReportE_error_of_mem (rl : String → Except PyError (Option String))
    (queries : List QueryRecord)
    (h : ∃ q ∈ queries, ∃ e, rl q.query = .error e) :
    ∃ e, buildReportE rl queries = .error e := by
  induction queries with
  | nil => simp at h
  | cons q rest ih =>
      obtain ⟨q0, hq0, e0, he0⟩ := h
      rcases List.mem_cons.mp hq0 with rfl | hmem
      · cases hrl : rl q0.query with
        | error e => exact ⟨e, by simp [buildReportE, hrl]⟩
        | ok route =>
            rw [hrl] at he0
            exact absurd he0 (by simp)
      · cases hrl : rl q.query with
        | error e => exact ⟨e, by simp [buildReportE, hrl]⟩
        | ok route =>
            obtain ⟨e, he⟩ := ih ⟨q0, hmem, e0, he0⟩
            exact ⟨e, by simp [buildReportE, hrl, he]⟩

/-! ## Claim theorems -/

/-- C2, counterexample: when `cursor.execute` raises an SQLite error
inside `get_column_info`, the `except` clause returns `None` without ever
reaching `conn.close()` — the operation's trace opens a connection and
never closes it. -/
theorem c2_counterexample :
    (get_column_info (fun _ => Except.error (PyError.sqliteError "no such table"))
        "countries_data").2 =
      [DbEvent.openConn, DbEvent.exec (columnInfoSql "countries_data")] ∧
    DbEvent.closeConn ∉
      (get_column_info (fun _ => Except.error (PyError.sqliteError "no such table"))
        "countries_data").2 := by
  exact ⟨rfl, by decide⟩

/-- C2, amended: each database operation (schema introspection, table
sampling, SQL execution) opens one connection per call and closes it on
the success path, but when `execute`/`fetchall` raises, the handler runs
before `conn.close()` and the connection is never released — the close
event happens exactly when the database call succeeds. -/
theorem c2_close_only_on_success :
    ∀ (db : String → Except PyError (List Row)) (table s : String),
      (get_column_info db table).2 =
        (if (db (columnInfoSql table)).isOk then
           [DbEvent.openConn, DbEvent.exec (columnInfoSql table), DbEvent.closeConn]
         else [DbEvent.openConn, DbEvent.exec (columnInfoSql table)]) ∧
      (get_table_sample db table).2 =
        (if (db (tableSampleSql table)).isOk then
           [DbEvent.openConn, DbEvent.exec (tableSampleSql table), DbEvent.closeConn]
         else [DbEvent.openConn, DbEvent.exec (tableSampleSql table)]) ∧
      (runExecutorBlock db (some (Json.str s))).2 =
        (if s = "" then []
         else if (db s).isOk then
           [DbEvent.openConn, DbEvent.exec s, DbEvent.closeConn]
         else [DbEvent.openConn, DbEvent.exec s]) := by
  intro db table s
  refine ⟨?_, ?_, ?_⟩
  · cases h : db (columnInfoSql table) <;> simp [get_column_info, h, Except.isOk, Except.toBool]
  · cases h : db (tableSampleSql table) <;> simp [get_table_sample, h, Except.isOk, Except.toBool]
  · by_cases hs : s = ""
    · subst hs
      rfl
    · cases h : db s <;>
        simp [runExecutorBlock, Json.truthy, isEmpty_false_of_ne s hs, hs, h,
          Except.isOk, Except.toBool]

/-- C5: the Prompt Builder is a pure function of its four inputs
(equal inputs give the identical output string), and its output contains
the natural-language query and the table name literally (as contiguous
substrings). -/
theorem c5_prompt_pure_and_literal :
    ∀ tn ts ci nq : String,
      List.IsInfix nq.data (nl2sqlPrompt tn ts ci nq).data ∧
      List.IsInfix tn.data (nl2sqlPrompt tn ts ci nq).data ∧
      (∀ tn2 ts2 ci2 nq2 : String, tn = tn2 → ts = ts2 → ci = ci2 → nq = nq2 →
        nl2sqlPrompt tn ts ci nq = nl2sqlPrompt tn2 ts2 ci2 nq2) := by
  intro tn ts ci nq
  refine ⟨?_, ?_, ?_⟩
  · refine ⟨(promptPart1 ++ tn ++ promptPart2 ++ ci ++ promptPart3 ++ tn ++
      promptPart4 ++ ts ++ promptPart5).data, "\n".data, ?_⟩
    simp [nl2sqlPrompt, String.data_append]
  · refine ⟨promptPart1.data, (promptPart2 ++ ci ++ promptPart3 ++ tn ++
      promptPart4 ++ ts ++ promptPart5 ++ nq ++ "\n").data, ?_⟩
    simp [nl2sqlPrompt, String.data_append]
  · rintro tn2 ts2 ci2 nq2 rfl rfl rfl rfl
    rfl

/-- C5, witness: the containment and purity at one concrete input. -/
theorem c5_prompt_pure_and_literal_witness :
    List.IsInfix ("How many habitants does Egypt have?").data
      (nl2sqlPrompt "countries_data" "sample" "cols"
        "How many habitants does Egypt have?").data ∧
    nl2sqlPrompt "countries_data" "sample" "cols"
        "How many habitants does Egypt have?" =
      nl2sqlPrompt "countries_data" "sample" "cols"
        "How many habitants does Egypt have?" :=
  ⟨(c5_prompt_pure_and_literal "countries_data" "sample" "cols"
      "How many habitants does Egypt have?").1,
   (c5_prompt_pure_and_literal "countries_data" "sample" "cols"
      "How many habitants does Egypt have?").2.2 _ _ _ _ rfl rfl rfl rfl⟩


/-- C1, counterexample: the reply `"\x7b\x7d"` (an empty JSON object) is
valid JSON whose decoded structure lacks the key `sql_query`, yet the
script raises an uncaught `KeyError` instead of yielding `sql_query =
None`: only `json.JSONDecodeError` is caught around the extraction. -/
theorem c1_counterexample :
    runQueryPhase (fun _ => some (Json.obj [])) (fun _ => Except.ok [])
      "\x7b\x7d" = (.raised (.keyError "sql_query"), []) := rfl

/-- C1, amended: for every model reply decoding to a JSON dictionary that
lacks the key `sql_query`, the script raises an uncaught `KeyError`
(so the Query Executor is never invoked and no SQL is attempted); it
yields `sql_query = None` only on JSON decode failure. -/
theorem c1_missing_key_raises (decode : String → Option Json)
    (db : String → Except PyError (List Row)) (response : String)
    (fields : List (String × Json))
    (hdec : decode response = some (Json.obj fields))
    (hmiss : fields.lookup "sql_query" = none) :
    runQueryPhase decode db response = (.raised (.keyError "sql_query"), []) := by
  simp [runQueryPhase, parseResponse, hdec, Json.subscript, hmiss]

/-- C1, witness for the amended theorem at the empty-object reply. -/
theorem c1_missing_key_raises_witness :
    runQueryPhase (fun _ => some (Json.obj [])) (fun _ => Except.ok [])
      "\x7b\x7d" = (.raised (.keyError "sql_query"), []) :=
  c1_missing_key_raises (fun _ => some (Json.obj [])) (fun _ => Except.ok [])
    "\x7b\x7d" [] rfl rfl

/-- C4: for every model reply that is not valid JSON (the decode raises
`json.JSONDecodeError`), the script yields `sql_query = None`, completes
without an uncaught exception, and never invokes the Query Executor (no
connection is opened and no SQL is attempted). -/
theorem c4_invalid_json_yields_none (decode : String → Option Json)
    (db : String → Except PyError (List Row)) (response : String)
    (h : decode response = none) :
    parseResponse decode response = .ok none ∧
    runQueryPhase decode db response = (.ok (), []) := by
  refine ⟨?_, ?_⟩ <;> simp [runQueryPhase, parseResponse, h, runExecutorBlock]

/-- C4, witness at a reply that fails to decode. -/
theorem c4_invalid_json_yields_none_witness :
    parseResponse (fun _ => none) "not json at all" = .ok none ∧
    runQueryPhase (fun _ => none) (fun _ => Except.ok []) "not json at all" =
      (.ok (), []) :=
  c4_invalid_json_yields_none (fun _ => none) (fun _ => Except.ok [])
    "not json at all" rfl

/-- C3, counterexample: the response value `sql_query = ""` is present
(non-absent), yet `if sql_query:` is false for the empty string, so the
executor attempts it zero times, not exactly once. -/
theorem c3_counterexample :
    (some (Json.str "") : Option Json).isSome = true ∧
    execSqls (runExecutorBlock (fun _ => Except.ok []) (some (Json.str ""))).2
      = [] :=
  ⟨rfl, rfl⟩

/-- C3, amended: the executor attempts the extracted SQL exactly once
when `sql_query` is present as a truthy (non-empty) string — whether the
execution succeeds or raises, there is no retry — and attempts no SQL
when `sql_query` is absent, falsy, or not a string. -/
theorem c3_exec_exactly_once_when_truthy :
    ∀ (db : String → Except PyError (List Row)) (sq : Option Json),
      execSqls (runExecutorBlock db sq).2 =
        match sq with
        | some (.str s) => if s = "" then [] else [s]
        | _ => [] := by
  intro db sq
  match sq with
  | none => rfl
  | some (.null) => rfl
  | some (.bool b) => cases b <;> rfl
  | some (.num n) =>
      by_cases h : n = 0 <;>
        simp [runExecutorBlock, Json.truthy, h, execSqls]
  | some (.str s) =>
      by_cases h : s = ""
      · subst h
        rfl
      · have he : s.isEmpty = false := by
          rw [Bool.eq_false_iff]
          intro hc
          exact h ((String.isEmpty_iff s).mp hc)
        cases hdb : db s <;>
          simp [runExecutorBlock, Json.truthy, he, h, hdb, execSqls]
  | some (.arr xs) =>
      cases xs <;> simp [runExecutorBlock, Json.truthy, execSqls]
  | some (.obj fs) =>
      cases fs <;> simp [runExecutorBlock, Json.truthy, execSqls]

/-- C6: for every table whose `PRAGMA table_info` lookup succeeds with
the engine's documented row shape, `get_column_info` returns exactly one
descriptor per table column, and the `column_id` values are `0, 1, 2, …`
— in particular a strictly increasing sequence starting at 0. -/
theorem c6_schema_introspection (db : String → Except PyError (List Row))
    (table : String) (cols : List (String × String))
    (h : db (columnInfoSql table) = .ok (pragmaRows cols)) :
    ∃ ds, (get_column_info db table).1 = some ds ∧
      ds.length = cols.length ∧
      ds.map (fun d => d.column_id) =
        (List.range cols.length).map (fun k => SqlValue.int k) := by
  refine ⟨descsFrom 0 cols, ?_, descsFrom_length 0 cols, ?_⟩
  · have hm := mapM_pragmaRowsFrom 0 cols
    simp only [get_column_info, h, pragmaRows, hm]
  · rw [List.range_eq_range']
    exact descsFrom_ids 0 cols

/-- C6, witness at a concrete two-column table. -/
theorem c6_schema_introspection_witness :
    ∃ ds,
      (get_column_info
        (fun _ => Except.ok (pragmaRows [("name", "TEXT"), ("population", "INTEGER")]))
        "countries_data").1 = some ds ∧
      ds.length = [("name", "TEXT"), ("population", "INTEGER")].length ∧
      ds.map (fun d => d.column_id) =
        (List.range [("name", "TEXT"), ("population", "INTEGER")].length).map
          (fun k => SqlValue.int k) :=
  c6_schema_introspection
    (fun _ => Except.ok (pragmaRows [("name", "TEXT"), ("population", "INTEGER")]))
    "countries_data" [("name", "TEXT"), ("population", "INTEGER")] rfl

/-- C7: the Batch Classifier produces exactly one `RouteAssignment` per
input record and preserves the input order of the queries (and their
categories). -/
theorem c7_batch_preserves_order :
    ∀ (rl : String → Option String) (queries : List QueryRecord),
      (buildReport rl queries).length = queries.length ∧
      (buildReport rl queries).map (fun a => a.query) =
        queries.map (fun q => q.query) ∧
      (buildReport rl queries).map (fun a => a.category) =
        queries.map (fun q => q.category) := by
  intro rl queries
  induction queries with
  | nil => exact ⟨rfl, rfl, rfl⟩
  | cons q rest ih =>
      exact ⟨by simp [buildReport, ih.1], by simp [buildReport, ih.2.1],
        by simp [buildReport, ih.2.2]⟩

/-- C8: for a fixed query, fixed similarity (embedding) and fixed route
set, the router's outcome is antitone in the threshold — no-match at
threshold `t` stays no-match at every threshold `t2 ≥ t`. -/
theorem c8_threshold_antitone (sim : String → Route → ℚ) (routes : List Route)
    (query : String) (t t2 : ℚ) (hle : t ≤ t2)
    (hnone : routeQuery sim t routes query = none) :
    routeQuery sim t2 routes query = none := by
  unfold routeQuery at hnone ⊢
  cases hbr : bestRoute sim query routes with
  | none => rfl
  | some p =>
      obtain ⟨r, score⟩ := p
      rw [hbr] at hnone
      by_cases h : t ≤ score
      · simp [h] at hnone
      · have h2 : ¬ t2 ≤ score := fun hc => h (le_trans hle hc)
        simp [h2]

/-- C8, witness: a query whose nearest-route similarity is 0 is no-match
at threshold 2 because it is already no-match at threshold 1. -/
theorem c8_threshold_antitone_witness :
    routeQuery (fun _ _ => 0) 2
      [⟨"cars", []⟩, ⟨"countries", []⟩] "hello" = none :=
  c8_threshold_antitone (fun _ _ => 0) [⟨"cars", []⟩, ⟨"countries", []⟩]
    "hello" 1 2 (by norm_num) (by norm_num [routeQuery, bestRoute])

/-- C9: report serialization round-trips — for every sequence of
`RouteAssignment` records, and any JSON string codec that faithfully
parses back what `json.dumps` wrote for this report, writing the report
and reading it back yields the same sequence of records with the same
field values. -/
theorem c9_report_roundtrip (dumps : Json → String)
    (parse : String → Option Json) (report : List RouteAssignment)
    (h : parse (dumps (reportToJson report)) = some (reportToJson report)) :
    (parse (dumps (reportToJson report))).bind reportOfJson = some report := by
  rw [h, Option.some_bind]
  exact report_roundtrip_json report

/-- C9, witness at a concrete two-record report. -/
theorem c9_report_roundtrip_witness :
    (some (reportToJson
        [⟨"How many habitants does Egypt have?", "countries", some "countries"⟩,
         ⟨"What are the engine specifications for Vortex X1?", "cars", none⟩])).bind
      reportOfJson =
      some
        [⟨"How many habitants does Egypt have?", "countries", some "countries"⟩,
         ⟨"What are the engine specifications for Vortex X1?", "cars", none⟩] :=
  c9_report_roundtrip (fun _ => "")
    (fun _ => some (reportToJson
      [⟨"How many habitants does Egypt have?", "countries", some "countries"⟩,
       ⟨"What are the engine specifications for Vortex X1?", "cars", none⟩]))
    [⟨"How many habitants does Egypt have?", "countries", some "countries"⟩,
     ⟨"What are the engine specifications for Vortex X1?", "cars", none⟩] rfl

/-- C10: the report file is written only after every record has been
classified — if any router call raises on any input record, the batch
run ends with that exception and writes no file at all. -/
theorem c10_report_all_or_nothing (rl : String → Except PyError (Option String))
    (dumps : Json → String) (queries : List QueryRecord)
    (h : ∃ q ∈ queries, ∃ e, rl q.query = .error e) :
    (runBatchClassifier rl dumps queries).2 = [] ∧
    ∃ e, (runBatchClassifier rl dumps queries).1 = .raised e := by
  obtain ⟨e, he⟩ := buildReportE_error_of_mem rl queries h
  exact ⟨by simp [runBatchClassifier, he], e, by simp [runBatchClassifier, he]⟩

/-- C10, witness: a single-record batch whose router call raises writes
no file. -/
theorem c10_report_all_or_nothing_witness :
    (runBatchClassifier (fun _ => Except.error (PyError.runtimeError "down"))
      (fun _ => "") [⟨"q1", "cars"⟩]).2 = [] ∧
    ∃ e, (runBatchClassifier (fun _ => Except.error (PyError.runtimeError "down"))
      (fun _ => "") [⟨"q1", "cars"⟩]).1 = .raised e :=
  c10_report_all_or_nothing (fun _ => Except.error (PyError.runtimeError "down"))
    (fun _ => "") [⟨"q1", "cars"⟩]
    ⟨⟨"q1", "cars"⟩, by simp, PyError.runtimeError "down", rfl⟩

end FastDbSearcher
